import Mathlib

/-!
# Verification of the tacomail-client core (`src/classes.ts`, `src/types.ts`)

Shallow embedding of the client library for the Tacomail temporary-email
service.  The HTTP adapter layer (`src/routes.ts`) is treated as an external
collaborator: each adapter operation is a parameter (a pure function returning
`Except TacomailError _`), and the embedding records which adapter calls a core
operation performs so that "never contacts the Adapter" style properties can be
stated.

Modelling conventions:
* JS numbers that hold timestamps / millisecond durations are `Int`.
* Network calls are instantaneous; the clock advances only while `waitForMail`
  sleeps, so elapsed time inside the poll loop is `sleeps * interval`.
* JS object identity (the in-place mutation of a `Session`, the defensive copy
  of the domains cache) is modelled with an explicit heap: a `List` of cells
  addressed by `Nat` references.
* `String.prototype.split('@')` is modelled by `splitAddr` below; a destructured
  component that would be `undefined` in JS is modelled as `""` (both are falsy,
  and the code only ever checks falsiness or passes the value to the adapter).
* Timers (`enableAutoRefresh` / `disableAutoRefresh`) are not modelled; no
  claim below depends on them.
-/

/-- Sender or recipient of an email (`EmailAddress` in `src/types.ts`). -/
structure EmailAddress where
  address : String
  name : String
deriving Repr, DecidableEq

/-- An attachment's identity (`AttachmentType` in `src/types.ts`). -/
structure Attachment where
  id : String
  filename : String
deriving Repr, DecidableEq

/-- Email body content (the `body` field of `MailType` in `src/types.ts`). -/
structure MailBody where
  text : String
  html : String
deriving Repr, DecidableEq

/-- A single email (`MailType` / class `Mail` in the source).  The `headers`
field is `Record<string, unknown>` in TS; the opaque values are modelled as
strings.  The `Mail` class copies all fields of the fetched `MailType`
verbatim, so fetched data and constructed `Mail` objects coincide here. -/
structure Mail where
  id : String
  «from» : EmailAddress
  «to» : EmailAddress
  subject : String
  date : String
  body : MailBody
  headers : List (String × String)
  attachments : List Attachment
deriving Repr, DecidableEq

/-- The error value thrown by the library (`TacomailError` and its subclasses
in `src/types.ts`): a `name` identifying the class, a message, and optional
status code / endpoint tag. -/
structure TacomailError where
  name : String
  message : String
  statusCode : Option Int
  endpoint : Option String
deriving Repr, DecidableEq

/-- `new TacomailError(message)` — the base class: `name` is `"TacomailError"`. -/
def TacomailError.base (message : String) (statusCode : Option Int)
    (endpoint : Option String) : TacomailError :=
  ⟨"TacomailError", message, statusCode, endpoint⟩

/-- `new SessionExpiredError(address)` (`src/types.ts`). -/
def SessionExpiredError (address : String) : TacomailError :=
  ⟨"SessionExpiredError", s!"Session for {address} has expired", some 401, some "session"⟩

/-- `new InboxNotFoundError(address)` (`src/types.ts`). -/
def InboxNotFoundError (address : String) : TacomailError :=
  ⟨"InboxNotFoundError", s!"Inbox {address} not found or no active session", some 404, some "inbox"⟩

/-- A session for an inbox (`Session` in `src/types.ts`): address, expiry
timestamp in ms, server URL.  The `isValid` closure is modelled by
`Session.isValid` below. -/
structure Session where
  address : String
  expires : Int
  server : String
deriving Repr, DecidableEq

/-- `isValid(): boolean { return Date.now() < this.expires; }` with the current
clock passed explicitly. -/
def Session.isValid (s : Session) (now : Int) : Bool :=
  now < s.expires

/-- Model of `address.split('@')` (JS `String.prototype.split` with a
single-character separator): splits the character list at every `'@'`,
keeping empty segments, and always returns at least one segment. -/
def splitCharList : List Char → List (List Char)
  | [] => [[]]
  | c :: cs =>
    match splitCharList cs with
    | [] => [[c]]
    | g :: gs => if c = '@' then [] :: g :: gs else (c :: g) :: gs

/-- `address.split('@')` as a list of strings. -/
def splitAddr (s : String) : List String :=
  (splitCharList s.data).map (fun cs => String.mk cs)

/-- `const [username, domain] = address.split('@')` — the first component.
`split` always yields at least one segment, so `username` is never
`undefined`. -/
def usernameOf (address : String) : String :=
  (splitAddr address).headD ""

/-- `const [username, domain] = address.split('@')` — the second component;
`undefined` (no `'@'` in the address) is modelled as `""`. -/
def domainOf (address : String) : String :=
  ((splitAddr address).drop 1).headD ""

/-! ## `Inbox.waitForMail` (`src/classes.ts` lines 159–189)

The adapter's `getMailForAddress` is modelled as `listMail : Nat → Except
TacomailError (List Mail)`, indexed by how many list calls have already been
made (so the fake adapter of a test can answer differently per call).  The
outcome records the returned mail or error together with the number of list
calls made and the number of `setTimeout` sleeps performed. -/

/-- Result of a `waitForMail` run: the returned mail or thrown error, the
number of adapter list calls performed, and the number of sleeps executed. -/
structure WaitOutcome where
  result : Except TacomailError Mail
  listCalls : Nat
  sleeps : Nat
deriving Repr

/-- ``throw new TacomailError(`Timeout waiting for email after ${timeout}ms`)``. -/
def timeoutError (timeout : Int) : TacomailError :=
  TacomailError.base s!"Timeout waiting for email after {timeout}ms" none none

/-- The `while (Date.now() - start < timeout)` loop of `waitForMail`.
Elapsed time is `sleeps * interval` (network calls are instantaneous).
`fuel` is a termination bound; the top-level entry point supplies
`timeout.toNat + 1`, which (for `interval ≥ 1`) is never exhausted while the
loop condition still holds, so the fuel-exhausted branch returns exactly what
the loop would: the timeout error. -/
def waitForMailLoop (listMail : Nat → Except TacomailError (List Mail))
    (filter : Mail → Bool) (timeout interval : Int) (existingIds : List String) :
    Nat → Nat → Nat → WaitOutcome
  | 0, calls, sleeps => ⟨.error (timeoutError timeout), calls, sleeps⟩
  | fuel + 1, calls, sleeps =>
    if (sleeps : Int) * interval < timeout then
      match listMail calls with
      | .error e => ⟨.error e, calls + 1, sleeps⟩
      | .ok mails =>
        -- first pass: new mails (id not in the baseline) that match
        match mails.find? (fun m => !(existingIds.contains m.id) && filter m) with
        | some m => ⟨.ok m, calls + 1, sleeps⟩
        | none =>
          -- second pass: baseline mails that match
          match mails.find? (fun m => existingIds.contains m.id && filter m) with
          | some m => ⟨.ok m, calls + 1, sleeps⟩
          | none =>
            waitForMailLoop listMail filter timeout interval existingIds
              fuel (calls + 1) (sleeps + 1)
    else ⟨.error (timeoutError timeout), calls, sleeps⟩

/-- `Inbox.waitForMail(filter, timeout, interval)`: baseline fetch recording
`existingIds`, then the poll loop.  A failure of the baseline fetch
propagates. -/
def waitForMail (listMail : Nat → Except TacomailError (List Mail))
    (filter : Mail → Bool) (timeout interval : Int) : WaitOutcome :=
  match listMail 0 with
  | .error e => ⟨.error e, 1, 0⟩
  | .ok existingMails =>
    waitForMailLoop listMail filter timeout interval (existingMails.map Mail.id)
      (timeout.toNat + 1) 1 0

/-- `waitForMail`'s default `timeout` (2 minutes). -/
def waitForMailDefaultTimeout : Int := 120000

/-- `waitForMail`'s default `interval` (2 seconds). -/
def waitForMailDefaultInterval : Int := 2000

/-! ## Sessions, the Client's session registry, and `refreshSession`

`TacomailClient` keeps `sessions : Map<string, Session>`; an `Inbox` holds a
reference to *the same* `Session` object the client registered (createInbox
passes the object to both).  To capture this sharing, `Session` objects live
in an explicit heap (`List Session`, addressed by `Nat`), the client map sends
addresses to heap references, and an `Inbox` holds an optional reference. -/

/-- The state of an `Inbox` (class `Inbox` in `src/classes.ts`): its address,
server, and optional reference to a `Session` heap cell.  The `refreshTimer`
field (timers) is not modelled. -/
structure Inbox where
  address : String
  server : String
  session : Option Nat
deriving Repr, DecidableEq

/-- `Map.prototype.set`: replace the value of an existing key in place, or
append a new entry. -/
def mapSet (m : List (String × Nat)) (k : String) (v : Nat) : List (String × Nat) :=
  match m with
  | [] => [(k, v)]
  | (k', v') :: rest => if k' = k then (k, v) :: rest else (k', v') :: mapSet rest k v

/-- Outcome of `Inbox.refreshSession`: thrown error or success, the session
heap afterwards, and the `(username, domain)` arguments of each
`createSession` adapter call made. -/
structure RefreshOutcome where
  result : Except TacomailError Unit
  heap : List Session
  createSessionCalls : List (String × String)
deriving Repr

/-- `Inbox.refreshSession()` (`src/classes.ts` lines 195–207):
no session → throw the base `TacomailError('No session to refresh')`;
session invalid at `now` → throw `SessionExpiredError(address)`;
otherwise call the adapter's `createSession(username, domain)` and overwrite
`expires` in place on the same `Session` heap cell. -/
def refreshSession (createSession : String → String → Except TacomailError Int)
    (now : Int) (inbox : Inbox) (heap : List Session) : RefreshOutcome :=
  match inbox.session with
  | none => ⟨.error (TacomailError.base "No session to refresh" none none), heap, []⟩
  | some ref =>
    let s := heap.getD ref ⟨"", 0, ""⟩
    if s.isValid now then
      let username := usernameOf inbox.address
      let domain := domainOf inbox.address
      match createSession username domain with
      | .error e => ⟨.error e, heap, [(username, domain)]⟩
      | .ok expires => ⟨.ok (), heap.set ref { s with expires := expires }, [(username, domain)]⟩
    else ⟨.error (SessionExpiredError inbox.address), heap, []⟩

/-- Outcome of `TacomailClient.createInbox`: the returned `Inbox` or thrown
error, the client's session map and the session heap afterwards, and the
`(username, domain)` arguments of each `createSession` adapter call. -/
structure CreateInboxOutcome where
  result : Except TacomailError Inbox
  sessions : List (String × Nat)
  heap : List Session
  createSessionCalls : List (String × String)
deriving Repr

/-- `TacomailClient.createInbox(address)` (`src/classes.ts` lines 39–64):
split the address at `'@'`; if username or domain is falsy throw
`TacomailError('Invalid email address format')`; otherwise call the adapter's
`createSession(username, domain)`, build a `Session` carrying the *full*
original address, register it in the client map, and return an `Inbox`
holding the same `Session` object.  (`options.refreshInterval` only arms the
unmodelled timer.) -/
def createInbox (createSession : String → String → Except TacomailError Int)
    (server address : String) (sessions : List (String × Nat)) (heap : List Session) :
    CreateInboxOutcome :=
  let username := usernameOf address
  let domain := domainOf address
  if username = "" || domain = "" then
    ⟨.error (TacomailError.base "Invalid email address format" none none), sessions, heap, []⟩
  else
    match createSession username domain with
    | .error e => ⟨.error e, sessions, heap, [(username, domain)]⟩
    | .ok expires =>
      let ref := heap.length
      ⟨.ok ⟨address, server, some ref⟩, mapSet sessions address ref,
        heap ++ [⟨address, expires, server⟩], [(username, domain)]⟩

/-! ## `TacomailClient.getDomains` (`src/classes.ts` lines 27–32)

JS arrays are mutable objects, and the code returns `[...this.domainsCache]`
— a fresh copy — so the cache cannot be mutated through a returned array.
Domain arrays therefore live in their own heap (`List (List String)`); the
cache field holds a reference, and each call returns a reference to a fresh
cell. -/

/-- Outcome of one `getDomains()` call: reference to the returned array (or
thrown error), the `domainsCache` field afterwards, the array heap
afterwards, and how many `getAvailableDomains` adapter calls were made. -/
structure DomainsOutcome where
  result : Except TacomailError Nat
  cache : Option Nat
  heap : List (List String)
  fetchCalls : Nat
deriving Repr

/-- `TacomailClient.getDomains()`: on a cold cache fetch the list, store it in
the cache, and return a fresh copy; on a warm cache return a fresh copy of the
cached cell without fetching. -/
def getDomains (getAvailableDomains : Except TacomailError (List String))
    (cache : Option Nat) (heap : List (List String)) : DomainsOutcome :=
  match cache with
  | none =>
    match getAvailableDomains with
    | .error e => ⟨.error e, none, heap, 1⟩
    | .ok domains =>
      let c := heap.length
      let heap1 := heap ++ [domains]
      -- `return [...this.domainsCache]`: allocate a copy of the cached cell
      ⟨.ok heap1.length, some c, heap1 ++ [heap1.getD c []], 1⟩
  | some c =>
    ⟨.ok heap.length, some c, heap ++ [heap.getD c []], 0⟩

/-- `n` successive `getDomains()` calls on the same client, accumulating the
total number of adapter fetches. -/
def getDomainsIter (getAvailableDomains : Except TacomailError (List String)) :
    Nat → Option Nat → List (List String) → Nat → Option Nat × List (List String) × Nat
  | 0, cache, heap, fetches => (cache, heap, fetches)
  | n + 1, cache, heap, fetches =>
    let o := getDomains getAvailableDomains cache heap
    getDomainsIter getAvailableDomains n o.cache o.heap (fetches + o.fetchCalls)

/-! ## Session deletion (`src/classes.ts` lines 91–109) -/

/-- Outcome of `deleteSessionForInbox` / `deleteAllSessions`: thrown error or
success, the client's session map afterwards, and the `(username, domain)`
arguments of each `deleteSession` adapter call made. -/
structure DeleteOutcome where
  result : Except TacomailError Unit
  sessions : List (String × Nat)
  deleteSessionCalls : List (String × String)
deriving Repr

/-- `TacomailClient.deleteSessionForInbox(address)`: if the map holds a session
for the address, call the adapter's `deleteSession(username, domain)` and on
success remove the entry (on failure the entry stays, since the `await`
throws before `sessions.delete`). -/
def deleteSessionForInbox (deleteSession : String → String → Except TacomailError Unit)
    (address : String) (sessions : List (String × Nat)) : DeleteOutcome :=
  match sessions.lookup address with
  | none => ⟨.ok (), sessions, []⟩
  | some _ =>
    let username := usernameOf address
    let domain := domainOf address
    match deleteSession username domain with
    | .error e => ⟨.error e, sessions, [(username, domain)]⟩
    | .ok _ => ⟨.ok (), sessions.filter (fun p => p.1 != address), [(username, domain)]⟩

/-- `TacomailClient.deleteAllSessions()`: dispatch `deleteSessionForInbox` for
every registered address and `Promise.all` the results, then clear the map.
`Array.prototype.map` starts every promise before `Promise.all` awaits, so
every per-address adapter call is attempted regardless of the other
deletions' outcomes; the adapter is a deterministic function, so each
per-address outcome is a pure lookup.  `Promise.all` rejects with the first
failure, in which case `sessions.clear()` is not reached and only the
successfully deleted entries are gone; if all succeed the map is cleared. -/
def deleteAllSessions (deleteSession : String → String → Except TacomailError Unit)
    (sessions : List (String × Nat)) : DeleteOutcome :=
  let keys := sessions.map Prod.fst
  let calls := keys.map (fun a => (usernameOf a, domainOf a))
  match keys.findSome? (fun a =>
      match deleteSession (usernameOf a) (domainOf a) with
      | .error e => some e
      | .ok _ => none) with
  | some e =>
    ⟨.error e,
      sessions.filter (fun p =>
        match deleteSession (usernameOf p.1) (domainOf p.1) with
        | .error _ => true
        | .ok _ => false),
      calls⟩
  | none => ⟨.ok (), [], calls⟩

/-! ## Theorems -/

/-- A concrete mail value used in closed-form evaluations. -/
def sampleMail : Mail :=
  ⟨"m1", ⟨"alice@example.com", "Alice"⟩, ⟨"bob@tacomail.de", ""⟩, "hello",
    "2024-01-01T00:00:00Z", ⟨"hi", "<p>hi</p>"⟩, [], []⟩

/-- C1 (counterexample): with a match-all filter and an adapter that returns the
same single mail on every list call, `waitForMail` does return that mail, but
with **zero** sleeps — the pre-existing matching mail is found by the second
pass of the *first* loop iteration, before any `setTimeout` runs — so the
claim's "after exactly one sleep interval has elapsed" is false. -/
theorem waitForMail_preexisting_counterexample :
    (waitForMail (fun _ => .ok [sampleMail]) (fun _ => true) 10 2).result = .ok sampleMail ∧
    (waitForMail (fun _ => .ok [sampleMail]) (fun _ => true) 10 2).sleeps = 0 ∧
    (waitForMail (fun _ => .ok [sampleMail]) (fun _ => true) 10 2).sleeps ≠ 1 :=
  ⟨rfl, rfl, by decide⟩

/-- C1 (amended): with a match-all filter, a positive timeout, and an adapter
returning the same single mail on every list call, `waitForMail` returns that
mail only after one full poll cycle — two adapter list calls: the baseline
snapshot plus one live poll, so not instantaneously from the baseline — and
zero sleep intervals have elapsed when it returns. -/
theorem waitForMail_preexisting_first_poll (m : Mail) (timeout interval : Int)
    (ht : 0 < timeout) :
    waitForMail (fun _ => .ok [m]) (fun _ => true) timeout interval = ⟨.ok m, 2, 0⟩ := by
  unfold waitForMail
  simp only
  unfold waitForMailLoop
  simp [List.find?, ht]

/-- Witness for `waitForMail_preexisting_first_poll` at a concrete input. -/
theorem waitForMail_preexisting_first_poll_witness :
    waitForMail (fun _ => .ok [sampleMail]) (fun _ => true) 10 2 = ⟨.ok sampleMail, 2, 0⟩ :=
  waitForMail_preexisting_first_poll sampleMail 10 2 (by decide)

/-- Poll-loop lemma: if the adapter always succeeds and no fetched mail ever
matches the filter, the loop exits with the timeout error, and at the exit at
least `timeout` milliseconds of sleeps have elapsed.  The fuel hypothesis
`timeout.toNat < fuel + sleeps` is the invariant established by the entry
point's `timeout.toNat + 1`. -/
theorem waitForMailLoop_no_match
    (listMail : Nat → Except TacomailError (List Mail)) (filter : Mail → Bool)
    (timeout interval : Int) (existingIds : List String)
    (hint : 1 ≤ interval)
    (hok : ∀ i, ∃ l, listMail i = .ok l ∧ ∀ m ∈ l, filter m = false) :
    ∀ fuel calls sleeps, timeout.toNat < fuel + sleeps →
      ∃ calls' sleeps',
        waitForMailLoop listMail filter timeout interval existingIds fuel calls sleeps
          = ⟨.error (timeoutError timeout), calls', sleeps'⟩ ∧
        timeout ≤ (sleeps' : Int) * interval := by
  intro fuel
  induction fuel with
  | zero =>
    intro calls sleeps hlt
    refine ⟨calls, sleeps, rfl, ?_⟩
    have h1 : (timeout : Int) ≤ (timeout.toNat : Int) := Int.self_le_toNat timeout
    have hlt' : timeout.toNat < sleeps := by omega
    have h2 : (timeout.toNat : Int) < (sleeps : Int) := by exact_mod_cast hlt'
    have h3 : (sleeps : Int) ≤ (sleeps : Int) * interval :=
      le_mul_of_one_le_right (by positivity) hint
    linarith
  | succ fuel ih =>
    intro calls sleeps hlt
    unfold waitForMailLoop
    by_cases hc : (sleeps : Int) * interval < timeout
    · rw [if_pos hc]
      obtain ⟨l, hl, hf⟩ := hok calls
      rw [hl]
      have hfind1 : l.find? (fun m => !(existingIds.contains m.id) && filter m) = none := by
        refine List.find?_eq_none.mpr fun m hm => ?_
        simp [hf m hm]
      have hfind2 : l.find? (fun m => existingIds.contains m.id && filter m) = none := by
        refine List.find?_eq_none.mpr fun m hm => ?_
        simp [hf m hm]
      simp only [hfind1, hfind2]
      exact ih (calls + 1) (sleeps + 1) (by omega)
    · rw [if_neg hc]
      exact ⟨calls, sleeps, rfl, le_of_not_lt hc⟩

/-- C2: if every adapter list call succeeds (so no failure can come from the
Adapter) and the filter matches no fetched mail, `waitForMail` returns no
mail: it fails with the locally raised `TacomailError` whose message names
the timeout, and at the failure the elapsed sleep time has reached
`timeout`.  (`1 ≤ interval` rules out a zero/negative sleep interval, under
which the real loop would only terminate through wall-clock drift that the
instantaneous-network model does not track; the library default is 2000.) -/
theorem waitForMail_timeout_no_match
    (listMail : Nat → Except TacomailError (List Mail)) (filter : Mail → Bool)
    (timeout interval : Int)
    (hint : 1 ≤ interval)
    (hok : ∀ i, ∃ l, listMail i = .ok l ∧ ∀ m ∈ l, filter m = false) :
    ∃ calls' sleeps',
      waitForMail listMail filter timeout interval
        = ⟨.error (timeoutError timeout), calls', sleeps'⟩ ∧
      timeout ≤ (sleeps' : Int) * interval := by
  obtain ⟨l0, hl0, -⟩ := hok 0
  unfold waitForMail
  rw [hl0]
  exact waitForMailLoop_no_match listMail filter timeout interval _ hint hok
    (timeout.toNat + 1) 1 0 (by omega)

/-- Witness for `waitForMail_timeout_no_match` at a concrete input. -/
theorem waitForMail_timeout_no_match_witness :
    ∃ calls' sleeps',
      waitForMail (fun _ => .ok []) (fun _ => false) 4 2
        = ⟨.error (timeoutError 4), calls', sleeps'⟩ ∧
      (4 : Int) ≤ (sleeps' : Int) * 2 :=
  waitForMail_timeout_no_match (fun _ => .ok []) (fun _ => false) 4 2 (by decide)
    (fun _ => ⟨[], rfl, by simp⟩)

/-- C10: with `timeout ≤ 0` and a successful baseline fetch, `waitForMail`
performs exactly one adapter list call (the baseline), executes no poll
iteration and no sleep, and fails with the timeout error — never returning a
mail, whatever the inbox contains and whatever the filter is. -/
theorem waitForMail_nonpositive_timeout
    (listMail : Nat → Except TacomailError (List Mail)) (filter : Mail → Bool)
    (timeout interval : Int) (l : List Mail)
    (ht : timeout ≤ 0) (hl : listMail 0 = .ok l) :
    waitForMail listMail filter timeout interval
      = ⟨.error (timeoutError timeout), 1, 0⟩ := by
  unfold waitForMail
  rw [hl]
  rw [Int.toNat_of_nonpos ht]
  unfold waitForMailLoop
  rw [if_neg]
  simp only [Nat.cast_zero, zero_mul]
  omega

/-- Witness for `waitForMail_nonpositive_timeout`: a matching mail is present
at call time, yet the call times out after the single baseline fetch. -/
theorem waitForMail_nonpositive_timeout_witness :
    waitForMail (fun _ => .ok [sampleMail]) (fun _ => true) 0 2
      = ⟨.error (timeoutError 0), 1, 0⟩ :=
  waitForMail_nonpositive_timeout (fun _ => .ok [sampleMail]) (fun _ => true) 0 2
    [sampleMail] (by decide) rfl

/-- C3: `refreshSession` on an Inbox whose Session has already failed its
validity check (`expires ≤ now`) fails with `SessionExpiredError` carrying the
inbox's address, makes no `createSession` adapter call, and leaves the session
heap (hence the Session) unchanged. -/
theorem refreshSession_expired
    (createSession : String → String → Except TacomailError Int) (now : Int)
    (inbox : Inbox) (heap : List Session) (ref : Nat)
    (href : inbox.session = some ref)
    (hexp : (heap.getD ref ⟨"", 0, ""⟩).expires ≤ now) :
    refreshSession createSession now inbox heap
      = ⟨.error (SessionExpiredError inbox.address), heap, []⟩ := by
  unfold refreshSession
  rw [href]
  simp only
  rw [if_neg]
  simp only [Session.isValid, decide_eq_true_eq, not_lt]
  exact hexp

/-- Witness for `refreshSession_expired` at a concrete input. -/
theorem refreshSession_expired_witness :
    refreshSession (fun _ _ => .ok 999) 100 ⟨"a@b", "https://tacomail.de", some 0⟩
        [⟨"a@b", 100, "https://tacomail.de"⟩]
      = ⟨.error (SessionExpiredError "a@b"), [⟨"a@b", 100, "https://tacomail.de"⟩], []⟩ :=
  refreshSession_expired (fun _ _ => .ok 999) 100 ⟨"a@b", "https://tacomail.de", some 0⟩
    [⟨"a@b", 100, "https://tacomail.de"⟩] 0 rfl (by decide)

/-- C4 (counterexample): `refreshSession` on an Inbox with no Session throws
`new TacomailError('No session to refresh')` — an instance of the *base*
error class, whose `name` is `"TacomailError"`, the very same class and name a
generic adapter/service failure carries — so the thrown error is not a
distinct NoSession kind as the claim states. -/
theorem refreshSession_no_session_counterexample :
    (refreshSession (fun _ _ => .ok 0) 0 ⟨"a@b", "https://tacomail.de", none⟩ []).result
      = .error (TacomailError.base "No session to refresh" none none) ∧
    (TacomailError.base "No session to refresh" none none).name = "TacomailError" ∧
    (TacomailError.base "No session to refresh" none none).name
      = (TacomailError.base "Unknown API error" (some 500) (some "GET /domains")).name :=
  ⟨rfl, rfl, rfl⟩

/-- C4 (amended): `refreshSession` on an Inbox holding no Session always fails
with the locally raised base `TacomailError` carrying the message
`'No session to refresh'` (no distinct NoSession error class exists in the
code), makes no `createSession` adapter call, and leaves the heap unchanged. -/
theorem refreshSession_no_session
    (createSession : String → String → Except TacomailError Int) (now : Int)
    (inbox : Inbox) (heap : List Session)
    (h : inbox.session = none) :
    refreshSession createSession now inbox heap
      = ⟨.error (TacomailError.base "No session to refresh" none none), heap, []⟩ := by
  unfold refreshSession
  rw [h]

/-- Witness for `refreshSession_no_session` at a concrete input. -/
theorem refreshSession_no_session_witness :
    refreshSession (fun _ _ => .ok 0) 0 ⟨"a@b", "https://tacomail.de", none⟩ []
      = ⟨.error (TacomailError.base "No session to refresh" none none), [], []⟩ :=
  refreshSession_no_session (fun _ _ => .ok 0) 0 ⟨"a@b", "https://tacomail.de", none⟩ [] rfl

/-- C5 (counterexample): `expires` is *not* monotone.  A session valid until
100 is refreshed at `now = 50`; the adapter answers with `expires = 30`, and
the successful refresh overwrites the session's `expires` backwards to 30. -/
theorem refreshSession_expires_decrease_counterexample :
    (refreshSession (fun _ _ => .ok 30) 50 ⟨"a@b", "srv", some 0⟩
        [⟨"a@b", 100, "srv"⟩]).result = .ok () ∧
    ((refreshSession (fun _ _ => .ok 30) 50 ⟨"a@b", "srv", some 0⟩
        [⟨"a@b", 100, "srv"⟩]).heap.getD 0 ⟨"", 0, ""⟩).expires < 100 :=
  ⟨rfl, by decide⟩

/-- C5 (amended): a successful `refreshSession` sets the Session's `expires`
to exactly the value the Adapter returned — so `expires` does not decrease
only under the additional assumption that the returned value is at least the
previous `expires`; the code itself enforces no forward motion. -/
theorem refreshSession_expires_adapter_value
    (createSession : String → String → Except TacomailError Int) (now : Int)
    (inbox : Inbox) (heap : List Session) (ref : Nat) (v : Int)
    (href : inbox.session = some ref) (hr : ref < heap.length)
    (hval : (heap.getD ref ⟨"", 0, ""⟩).isValid now = true)
    (hcs : createSession (usernameOf inbox.address) (domainOf inbox.address) = .ok v) :
    (refreshSession createSession now inbox heap).result = .ok () ∧
    ((refreshSession createSession now inbox heap).heap.getD ref ⟨"", 0, ""⟩).expires = v ∧
    ((heap.getD ref ⟨"", 0, ""⟩).expires ≤ v →
      (heap.getD ref ⟨"", 0, ""⟩).expires
        ≤ ((refreshSession createSession now inbox heap).heap.getD ref ⟨"", 0, ""⟩).expires) := by
  have hres : refreshSession createSession now inbox heap
      = ⟨.ok (), heap.set ref { heap.getD ref ⟨"", 0, ""⟩ with expires := v },
          [(usernameOf inbox.address, domainOf inbox.address)]⟩ := by
    unfold refreshSession
    rw [href]
    simp only
    rw [if_pos hval, hcs]
  rw [hres]
  have hget : ((heap.set ref { heap.getD ref ⟨"", 0, ""⟩ with expires := v }).getD ref
      ⟨"", 0, ""⟩) = { heap.getD ref ⟨"", 0, ""⟩ with expires := v } := by
    rw [List.getD_eq_getElem?_getD, List.getElem?_set_eq_of_lt _ hr]
    rfl
  refine ⟨rfl, ?_, ?_⟩
  · simp only [hget]
  · intro hle
    simp only [hget]
    exact hle

/-- Witness for `refreshSession_expires_adapter_value` at a concrete input. -/
theorem refreshSession_expires_adapter_value_witness :
    (refreshSession (fun _ _ => .ok 200) 50 ⟨"a@b", "srv", some 0⟩
        [⟨"a@b", 100, "srv"⟩]).result = .ok () ∧
    ((refreshSession (fun _ _ => .ok 200) 50 ⟨"a@b", "srv", some 0⟩
        [⟨"a@b", 100, "srv"⟩]).heap.getD 0 ⟨"", 0, ""⟩).expires = 200 ∧
    (([(⟨"a@b", 100, "srv"⟩ : Session)].getD 0 ⟨"", 0, ""⟩).expires ≤ 200 →
      (([(⟨"a@b", 100, "srv"⟩ : Session)].getD 0 ⟨"", 0, ""⟩).expires
        ≤ ((refreshSession (fun _ _ => .ok 200) 50 ⟨"a@b", "srv", some 0⟩
            [⟨"a@b", 100, "srv"⟩]).heap.getD 0 ⟨"", 0, ""⟩).expires)) :=
  refreshSession_expires_adapter_value (fun _ _ => .ok 200) 50 ⟨"a@b", "srv", some 0⟩
    [⟨"a@b", 100, "srv"⟩] 0 200 rfl (by decide) (by decide) rfl

/-- `mapSet` lookup: after setting key `k` to `v`, looking up `k` yields `v`. -/
theorem mapSet_lookup (m : List (String × Nat)) (k : String) (v : Nat) :
    (mapSet m k v).lookup k = some v := by
  induction m with
  | nil => simp [mapSet, List.lookup]
  | cons p rest ih =>
    obtain ⟨k', v'⟩ := p
    by_cases h : k' = k
    · subst h
      simp [mapSet, List.lookup]
    · have hbeq : (k == k') = false := beq_eq_false_iff_ne.mpr (Ne.symm h)
      simp [mapSet, if_neg h, List.lookup, hbeq, ih]

/-- C6: after a successful `createInbox`, the client map's entry for the
address and the returned Inbox reference the *same* Session heap cell; a
successful `refreshSession` through that Inbox mutates only that cell, and
only its `expires` field — the cell afterwards is `⟨address, v, server⟩`
where `v` is the adapter-returned expiry, so the Client's registered Session
observes the update, while every other heap cell is untouched. -/
theorem createInbox_refresh_shared_session
    (cs1 cs2 : String → String → Except TacomailError Int)
    (server address : String) (sessions : List (String × Nat)) (heap : List Session)
    (now e0 v : Int)
    (hu : usernameOf address ≠ "") (hd : domainOf address ≠ "")
    (h1 : cs1 (usernameOf address) (domainOf address) = .ok e0)
    (hnow : now < e0)
    (h2 : cs2 (usernameOf address) (domainOf address) = .ok v) :
    ∃ inbox : Inbox,
      (createInbox cs1 server address sessions heap).result = .ok inbox ∧
      inbox.address = address ∧ inbox.server = server ∧
      inbox.session = some heap.length ∧
      (createInbox cs1 server address sessions heap).sessions.lookup address
        = some heap.length ∧
      (refreshSession cs2 now inbox (createInbox cs1 server address sessions heap).heap).result
        = .ok () ∧
      (refreshSession cs2 now inbox
          (createInbox cs1 server address sessions heap).heap).heap.getD heap.length ⟨"", 0, ""⟩
        = ⟨address, v, server⟩ ∧
      (∀ j, j ≠ heap.length →
        (refreshSession cs2 now inbox
            (createInbox cs1 server address sessions heap).heap).heap[j]?
          = (createInbox cs1 server address sessions heap).heap[j]?) := by
  have hcio : createInbox cs1 server address sessions heap
      = ⟨.ok ⟨address, server, some heap.length⟩, mapSet sessions address heap.length,
          heap ++ [⟨address, e0, server⟩], [(usernameOf address, domainOf address)]⟩ := by
    unfold createInbox
    rw [if_neg (by simp [hu, hd]), h1]
  have hcell : (heap ++ [(⟨address, e0, server⟩ : Session)]).getD heap.length ⟨"", 0, ""⟩
      = ⟨address, e0, server⟩ := by
    rw [List.getD_eq_getElem?_getD, List.getElem?_concat_length]
    rfl
  have href : refreshSession cs2 now ⟨address, server, some heap.length⟩
        (heap ++ [(⟨address, e0, server⟩ : Session)])
      = ⟨.ok (), (heap ++ [(⟨address, e0, server⟩ : Session)]).set heap.length
            (⟨address, v, server⟩ : Session),
          [(usernameOf address, domainOf address)]⟩ := by
    unfold refreshSession
    simp only [hcell]
    rw [if_pos (by simp only [Session.isValid, decide_eq_true_eq]; exact hnow), h2]
  refine ⟨⟨address, server, some heap.length⟩, ?_, rfl, rfl, rfl, ?_, ?_, ?_, ?_⟩
  · rw [hcio]
  · rw [hcio]
    exact mapSet_lookup sessions address heap.length
  · rw [hcio]
    simp only
    rw [href]
  · rw [hcio]
    simp only
    rw [href]
    rw [List.getD_eq_getElem?_getD, List.getElem?_set_eq_of_lt]
    · rfl
    · simp
  · intro j hj
    rw [hcio]
    simp only
    rw [href]
    exact List.getElem?_set_ne (Ne.symm hj)

/-- Witness for `createInbox_refresh_shared_session` at a concrete input. -/
theorem createInbox_refresh_shared_session_witness :
    ∃ inbox : Inbox,
      (createInbox (fun _ _ => .ok 100) "srv" "a@b" [] []).result = .ok inbox ∧
      inbox.address = "a@b" ∧ inbox.server = "srv" ∧
      inbox.session = some 0 ∧
      (createInbox (fun _ _ => .ok 100) "srv" "a@b" [] []).sessions.lookup "a@b" = some 0 ∧
      (refreshSession (fun _ _ => .ok 200) 50 inbox
          (createInbox (fun _ _ => .ok 100) "srv" "a@b" [] []).heap).result = .ok () ∧
      (refreshSession (fun _ _ => .ok 200) 50 inbox
          (createInbox (fun _ _ => .ok 100) "srv" "a@b" [] []).heap).heap.getD 0 ⟨"", 0, ""⟩
        = ⟨"a@b", 200, "srv"⟩ ∧
      (∀ j, j ≠ 0 →
        (refreshSession (fun _ _ => .ok 200) 50 inbox
            (createInbox (fun _ _ => .ok 100) "srv" "a@b" [] []).heap).heap[j]?
          = (createInbox (fun _ _ => .ok 100) "srv" "a@b" [] []).heap[j]?) :=
  createInbox_refresh_shared_session (fun _ _ => .ok 100) (fun _ _ => .ok 200)
    "srv" "a@b" [] [] 50 100 200 (by decide) (by decide) rfl (by decide) rfl

/-- C9: for an address whose `'@'`-split has at least two further segments
after a non-empty username and non-empty domain (i.e. more than one `'@'`),
`createInbox` does not fail with the invalid-address error: it calls the
adapter's `createSession` with exactly the first segment as username and the
second as domain (discarding the rest), while the registered Session and the
returned Inbox carry the full original address string. -/
theorem createInbox_multi_at
    (cs : String → String → Except TacomailError Int)
    (server address : String) (sessions : List (String × Nat)) (heap : List Session)
    (u d : String) (rest : List String) (e0 : Int)
    (hsplit : splitAddr address = u :: d :: rest)
    (_hrest : rest ≠ [])
    (hu : u ≠ "") (hd : d ≠ "")
    (hcs : cs u d = .ok e0) :
    (createInbox cs server address sessions heap).result
      = .ok ⟨address, server, some heap.length⟩ ∧
    (createInbox cs server address sessions heap).createSessionCalls = [(u, d)] ∧
    (createInbox cs server address sessions heap).heap
      = heap ++ [⟨address, e0, server⟩] ∧
    (createInbox cs server address sessions heap).sessions.lookup address
      = some heap.length := by
  have hun : usernameOf address = u := by simp [usernameOf, hsplit]
  have hdn : domainOf address = d := by simp [domainOf, hsplit]
  have hcio : createInbox cs server address sessions heap
      = ⟨.ok ⟨address, server, some heap.length⟩, mapSet sessions address heap.length,
          heap ++ [⟨address, e0, server⟩], [(u, d)]⟩ := by
    unfold createInbox
    rw [hun, hdn, if_neg (by simp [hu, hd]), hcs]
  rw [hcio]
  exact ⟨rfl, rfl, rfl, mapSet_lookup sessions address heap.length⟩

/-- Witness for `createInbox_multi_at` at the concrete address `"a@b@c"`. -/
theorem createInbox_multi_at_witness :
    (createInbox (fun _ _ => .ok 42) "srv" "a@b@c" [] []).result
      = .ok ⟨"a@b@c", "srv", some 0⟩ ∧
    (createInbox (fun _ _ => .ok 42) "srv" "a@b@c" [] []).createSessionCalls = [("a", "b")] ∧
    (createInbox (fun _ _ => .ok 42) "srv" "a@b@c" [] []).heap = [] ++ [⟨"a@b@c", 42, "srv"⟩] ∧
    (createInbox (fun _ _ => .ok 42) "srv" "a@b@c" [] []).sessions.lookup "a@b@c" = some 0 :=
  createInbox_multi_at (fun _ _ => .ok 42) "srv" "a@b@c" [] [] "a" "b" ["c"] 42
    (by decide) (by decide) (by decide) (by decide) rfl

/-- Iterated `getDomains` on a warm cache performs no further adapter
fetches. -/
theorem getDomainsIter_cached (fetch : Except TacomailError (List String)) :
    ∀ (n : Nat) (c : Nat) (heap : List (List String)) (fetches : Nat),
      (getDomainsIter fetch n (some c) heap fetches).2.2 = fetches := by
  intro n
  induction n with
  | zero => intro c heap fetches; rfl
  | succ n ih =>
    intro c heap fetches
    show (getDomainsIter fetch n (some c) (heap ++ [heap.getD c []]) (fetches + 0)).2.2
      = fetches
    rw [Nat.add_zero]
    exact ih c _ fetches

/-- C7: on a fresh client, `n ≥ 1` successive `getDomains()` calls hit the
adapter exactly once; the first call caches the fetched list and returns a
fresh copy of it, and every warm-cache call (cache cell `c` holding the
fetched list `l`) returns a reference to a *new* cell whose value is `l`,
distinct from the cache cell, so overwriting the returned cell leaves the
cached value `l` intact. -/
theorem getDomains_memoized (l : List String) (n : Nat) (hn : 1 ≤ n) :
    (getDomainsIter (.ok l) n none [] 0).2.2 = 1 ∧
    getDomains (.ok l) none [] = ⟨.ok 1, some 0, [l, l], 1⟩ ∧
    (∀ replacement : List String, (([l, l].set 1 replacement).getD 0 []) = l) ∧
    (∀ (heap : List (List String)) (c : Nat), c < heap.length → heap.getD c [] = l →
      (getDomains (.ok l) (some c) heap).fetchCalls = 0 ∧
      (getDomains (.ok l) (some c) heap).result = .ok heap.length ∧
      (getDomains (.ok l) (some c) heap).cache = some c ∧
      heap.length ≠ c ∧
      (getDomains (.ok l) (some c) heap).heap.getD heap.length [] = l ∧
      (∀ replacement : List String,
        ((getDomains (.ok l) (some c) heap).heap.set heap.length replacement).getD c []
          = l)) := by
  refine ⟨?_, rfl, ?_, ?_⟩
  · obtain ⟨m, rfl⟩ : ∃ m, n = m + 1 := ⟨n - 1, by omega⟩
    show (getDomainsIter (.ok l) m (some 0) [l, l] (0 + 1)).2.2 = 1
    rw [Nat.zero_add]
    exact getDomainsIter_cached (.ok l) m 0 [l, l] 1
  · intro replacement
    simp [List.set]
  · intro heap c hc hval
    refine ⟨rfl, rfl, rfl, by omega, ?_, ?_⟩
    · show (heap ++ [heap.getD c []]).getD heap.length [] = l
      rw [List.getD_eq_getElem?_getD, List.getElem?_concat_length]
      exact hval
    · intro replacement
      show ((heap ++ [heap.getD c []]).set heap.length replacement).getD c [] = l
      rw [List.getD_eq_getElem?_getD, List.getElem?_set_ne (by omega)]
      rw [List.getElem?_append, if_pos hc, ← List.getD_eq_getElem?_getD]
      exact hval

/-- Witness for `getDomains_memoized` at a concrete input. -/
theorem getDomains_memoized_witness :
    (getDomainsIter (.ok ["tacomail.de"]) 3 none [] 0).2.2 = 1 ∧
    getDomains (.ok ["tacomail.de"]) none []
      = ⟨.ok 1, some 0, [["tacomail.de"], ["tacomail.de"]], 1⟩ ∧
    (∀ replacement : List String,
      (([["tacomail.de"], ["tacomail.de"]].set 1 replacement).getD 0 []) = ["tacomail.de"]) ∧
    (∀ (heap : List (List String)) (c : Nat),
      c < heap.length → heap.getD c [] = ["tacomail.de"] →
      (getDomains (.ok ["tacomail.de"]) (some c) heap).fetchCalls = 0 ∧
      (getDomains (.ok ["tacomail.de"]) (some c) heap).result = .ok heap.length ∧
      (getDomains (.ok ["tacomail.de"]) (some c) heap).cache = some c ∧
      heap.length ≠ c ∧
      (getDomains (.ok ["tacomail.de"]) (some c) heap).heap.getD heap.length []
        = ["tacomail.de"] ∧
      (∀ replacement : List String,
        ((getDomains (.ok ["tacomail.de"]) (some c) heap).heap.set heap.length
            replacement).getD c [] = ["tacomail.de"])) :=
  getDomains_memoized ["tacomail.de"] 3 (by decide)

/-- C8: `deleteAllSessions` performs the adapter's `deleteSession` call for
*every* registered address — the recorded call list covers the whole session
map, with no short-circuit — and if at least one of those deletions fails,
the whole operation fails. -/
theorem deleteAllSessions_attempts_all
    (deleteSession : String → String → Except TacomailError Unit)
    (sessions : List (String × Nat))
    (hfail : ∃ p ∈ sessions, ∃ e,
      deleteSession (usernameOf p.1) (domainOf p.1) = .error e) :
    (deleteAllSessions deleteSession sessions).deleteSessionCalls
      = sessions.map (fun p => (usernameOf p.1, domainOf p.1)) ∧
    ∃ e, (deleteAllSessions deleteSession sessions).result = .error e := by
  obtain ⟨p, hp, e, he⟩ := hfail
  have hkey : p.1 ∈ sessions.map Prod.fst := List.mem_map_of_mem Prod.fst hp
  cases hfs : (sessions.map Prod.fst).findSome? (fun a =>
      match deleteSession (usernameOf a) (domainOf a) with
      | .error e => some e
      | .ok _ => none) with
  | none =>
    exfalso
    have hnone := List.findSome?_eq_none_iff.mp hfs p.1 hkey
    rw [he] at hnone
    exact Option.noConfusion hnone
  | some eFirst =>
    constructor
    · simp only [deleteAllSessions, hfs, List.map_map]
      rfl
    · refine ⟨eFirst, ?_⟩
      simp only [deleteAllSessions, hfs]

/-- Witness for `deleteAllSessions_attempts_all`: three registered sessions,
deletion of the second fails; all three adapter calls are still recorded and
the operation fails overall. -/
theorem deleteAllSessions_attempts_all_witness :
    (deleteAllSessions
        (fun u _ => if u = "b" then .error (TacomailError.base "boom" none none) else .ok ())
        [("a@x", 0), ("b@x", 1), ("c@x", 2)]).deleteSessionCalls
      = [("a@x", 0), ("b@x", 1), ("c@x", 2)].map (fun p => (usernameOf p.1, domainOf p.1)) ∧
    ∃ e, (deleteAllSessions
        (fun u _ => if u = "b" then .error (TacomailError.base "boom" none none) else .ok ())
        [("a@x", 0), ("b@x", 1), ("c@x", 2)]).result = .error e :=
  deleteAllSessions_attempts_all
    (fun u _ => if u = "b" then .error (TacomailError.base "boom" none none) else .ok ())
    [("a@x", 0), ("b@x", 1), ("c@x", 2)]
    ⟨("b@x", 1), by decide, TacomailError.base "boom" none none, rfl⟩
